import Mathlib

/-!
# Verification of the vessel-report validator (src/app.py)

Shallow embedding of the core `validate_reports` function of the repository.
A tabular dataset (pandas DataFrame) is modelled as a list of column names
together with a list of rows; a row is a total function from column names to
cell values (meaningful on the listed columns).  Machine floats are modelled
as rationals; missing values (NaN) are a dedicated cell constructor.
-/

namespace VesselReport

/-- A spreadsheet cell: a number, a text, or a missing value (NaN). -/
inductive Cell where
  | num (q : ℚ)
  | str (s : String)
  | na
deriving DecidableEq

/-- Python `str.strip()` on a character list: drop whitespace on both ends. -/
def stripChars (l : List Char) : List Char :=
  ((l.dropWhile Char.isWhitespace).reverse.dropWhile Char.isWhitespace).reverse

/-- Python `str.strip()`. -/
def strip (s : String) : String := String.mk (stripChars s.data)

/-- Python `str.replace(",", "")`: drop every comma. -/
def removeCommas (s : String) : String :=
  String.mk (s.data.filter (fun c => decide (c ≠ ',')))

/-- Split a character list on the dot character. -/
def splitDotAux : List Char → List Char → List (List Char)
  | acc, [] => [acc.reverse]
  | acc, c :: cs =>
    if c = '.' then acc.reverse :: splitDotAux [] cs else splitDotAux (c :: acc) cs

def splitDot (l : List Char) : List (List Char) := splitDotAux [] l

/-- Parse a non-empty all-digit character list as a natural number. -/
def digitsVal (l : List Char) : Option ℕ :=
  if l ≠ [] ∧ l.all Char.isDigit then
    some (l.foldl (fun a c => 10 * a + (c.toNat - 48)) 0)
  else none

/-- Numeric parsing as performed by pandas `to_numeric` on an already
comma-stripped, trimmed string: optional sign, integer digits, optional
fractional digits.  Returns `none` on anything else (the source coerces
such failures to NaN). -/
def parseNum (s : String) : Option ℚ :=
  let cs := s.data
  let sign : ℚ := if cs.head? = some '-' then -1 else 1
  let t := if cs.head? = some '-' ∨ cs.head? = some '+' then cs.drop 1 else cs
  match splitDot t with
  | [a] => (digitsVal a).map (fun n => sign * (n : ℚ))
  | [a, b] =>
    if a = [] ∧ b = [] then none
    else
      match (if a = [] then some 0 else digitsVal a),
            (if b = [] then some 0 else digitsVal b) with
      | some n, some m => some (sign * ((n : ℚ) + (m : ℚ) / ((10 : ℚ) ^ b.length)))
      | _, _ => none
  | _ => none

/-- The per-cell numeric cleaning applied to the six numeric columns
(src/app.py lines 24-33): `astype(str)` (NaN prints as "nan"), drop commas,
strip, map "", "nan", "None" to NaN, `to_numeric(errors="coerce")`, `fillna(0)`.
A numeric cell round-trips through its decimal representation and is returned
unchanged. -/
def cleanCell : Cell → ℚ
  | Cell.num q => q
  | Cell.na => 0
  | Cell.str s =>
    let t := strip (removeCommas s)
    if t = "" ∨ t = "nan" ∨ t = "None" then 0 else (parseNum t).getD 0

def loadCol : String := "Average Load [kW]"

def rhrsCol : String := "ME Rhrs (From Last Report)"

def speedCol : String := "Avg. Speed"

def fuel1Col : String := "Fuel Cons. [MT] (ME Cons 1)"

def fuel2Col : String := "Fuel Cons. [MT] (ME Cons 2)"

def fuel3Col : String := "Fuel Cons. [MT] (ME Cons 3)"

/-- The columns cleaned by the numeric-cleaning loop, in source order. -/
def numeric_cols : List String := [loadCol, rhrsCol, speedCol, fuel1Col, fuel2Col, fuel3Col]

/-- The five columns indexed without a guard while building the SFOC column
(src/app.py lines 36-45); a pandas lookup of an absent column raises KeyError. -/
def requiredCols : List String := [fuel1Col, fuel2Col, fuel3Col, loadCol, rhrsCol]

/-- A dataset: the present column names, and the rows (each a function from
column names to cells, meaningful on `cols`). -/
structure DataFrame where
  cols : List String
  rows : List (String → Cell)

/-- `row.get(c, d)` of a pandas Series taken from a DataFrame with columns
`cols`: the stored value when the label is present, else the default. -/
def rowGet (cols : List String) (row : String → Cell) (c : String) (d : Cell) : Cell :=
  if c ∈ cols then row c else d

/-- Numeric value of a cell; the pipeline only applies this to cells that
the cleaning step has already turned into numbers (or to numeric defaults). -/
def cellNum : Cell → ℚ
  | Cell.num q => q
  | _ => 0

/-- Python `str()` of a cell value (NaN prints as "nan"). -/
def cellToString : Cell → String
  | Cell.str s => s
  | Cell.num q => toString q
  | Cell.na => "nan"

/-- The numeric-cleaning loop of src/app.py lines 24-33 applied to one row:
each of the six numeric columns that is present in the schema is replaced by
its cleaned numeric value; all other cells are untouched. -/
def cleanRow (cols : List String) (row : String → Cell) : String → Cell :=
  fun c => if c ∈ numeric_cols ∧ c ∈ cols then Cell.num (cleanCell (row c)) else row c

/-- `Series.replace(0, np.nan)` on a single numeric value. -/
def nanRepl (q : ℚ) : Option ℚ := if q = 0 then none else some q

/-- The SFOC formula of src/app.py lines 36-46 on one (already cleaned) row:
`(fuel1 + fuel2 + fuel3) * 1_000_000 / (load.replace(0,nan) * rhrs.replace(0,nan))`
followed by `fillna(0)`; a NaN factor propagates to a NaN quotient. -/
def sfocOfRow (row : String → Cell) : ℚ :=
  match nanRepl (cellNum (row loadCol)), nanRepl (cellNum (row rhrsCol)) with
  | some l, some h =>
      (cellNum (row fuel1Col) + cellNum (row fuel2Col) + cellNum (row fuel3Col))
        * 1000000 / (l * h)
  | _, _ => 0

/-- Store the computed SFOC value in the row (`df["SFOC"] = ...`). -/
def addSfoc (row : String → Cell) : String → Cell :=
  fun c => if c = "SFOC" then Cell.num (sfocOfRow row) else row c

/-- Column list after the SFOC assignment: appended when new, overwritten in
place when already present. -/
def colsAfterSfoc (cols : List String) : List String :=
  if "SFOC" ∈ cols then cols else cols ++ ["SFOC"]

def msgSfocSea : String := "SFOC out of 150–200 at sea with ME Rhrs > 12"

def msgSfocPort : String := "SFOC not 0 at port/anchorage"

def msgSpeedSea : String := "Avg. Speed out of 0–20 at sea with ME Rhrs > 12"

def msgSpeedPort : String := "Avg. Speed not 0 at port"

def msgRhrs : String := "ME Rhrs > 25"

/-- The rule-3 message text; `j` is the value the source interpolates
(the `enumerate(exhaust_cols, start=1)` counter). -/
def msgAtUnit (j : ℕ) : String :=
  "Exhaust temp deviation > ±50 from avg at Unit " ++ toString j

/-- `report_type = str(row.get("Report Type", "")).strip()`. -/
def reportTypeOf (cols : List String) (row : String → Cell) : String :=
  strip (cellToString (rowGet cols row "Report Type" (Cell.str "")))

def meRhrsOf (cols : List String) (row : String → Cell) : ℚ :=
  cellNum (rowGet cols row rhrsCol (Cell.num 0))

def sfocValOf (cols : List String) (row : String → Cell) : ℚ :=
  cellNum (rowGet cols row "SFOC" (Cell.num 0))

def avgSpeedOf (cols : List String) (row : String → Cell) : ℚ :=
  cellNum (rowGet cols row speedCol (Cell.num 0))

/-- Rule 1 (src/app.py lines 58-66): SFOC range at sea, else the
at-port/anchorage zero check. 0.0001 is the source's tolerance. -/
def rule1Msgs (cols : List String) (row : String → Cell) : List String :=
  if reportTypeOf cols row = "At Sea" ∧ meRhrsOf cols row > 12 then
    if ¬(150 ≤ sfocValOf cols row ∧ sfocValOf cols row ≤ 200) then [msgSfocSea] else []
  else if reportTypeOf cols row = "At Port" ∨ reportTypeOf cols row = "At Anchorage" then
    if |sfocValOf cols row| > 1 / 10000 then [msgSfocPort] else []
  else []

/-- Rule 2 (src/app.py lines 68-76): speed range at sea, else the at-port
zero check. -/
def rule2Msgs (cols : List String) (row : String → Cell) : List String :=
  if reportTypeOf cols row = "At Sea" ∧ meRhrsOf cols row > 12 then
    if ¬(0 ≤ avgSpeedOf cols row ∧ avgSpeedOf cols row ≤ 20) then [msgSpeedSea] else []
  else if reportTypeOf cols row = "At Port" then
    if |avgSpeedOf cols row| > 1 / 10000 then [msgSpeedPort] else []
  else []

/-- Name of the exhaust-temperature column of engine unit `j`. -/
def exhName (j : ℕ) : String :=
  "Exh. Temp [°C] (Main Engine Unit " ++ toString j ++ ")"

/-- The unit numbers 1..16 whose exhaust column is present in the schema. -/
def exhUnits (cols : List String) : List ℕ :=
  (List.range' 1 16).filter (fun j => exhName j ∈ cols)

/-- `exhaust_cols` of the source: the present exhaust columns, in unit order. -/
def exhaustCols (cols : List String) : List String :=
  (exhUnits cols).map exhName

/-- A numeric exhaust reading; `none` models NaN (`pd.notna` fails).  A text
cell passes the source's notna/non-zero filter into `temps`, after which
`np.mean` raises TypeError; that error path is modelled by `rowRaises` below
(making `validate_reports` return nothing), so this scan is only reached on
rows without text readings, where mapping a text cell to no reading is
unobservable. -/
def tempOf : Cell → Option ℚ
  | Cell.num q => some q
  | _ => none

def cellIsStr : Cell → Bool
  | Cell.str _ => true
  | _ => false

/-- The rows on which the source's rule-3 scan raises: at sea with
ME Rhrs > 12 and a text cell in a present exhaust column.  Such a cell passes
the filter at src/app.py line 85 into `temps` (for a string `s`, `pd.notna(s)`
holds and `s != 0` is true), `temps` is then non-empty, and `np.mean(temps)`
at line 87 raises TypeError. -/
def rowRaises (cols : List String) (row : String → Cell) : Bool :=
  decide (reportTypeOf cols row = "At Sea") && decide (meRhrsOf cols row > 12)
    && (exhaustCols cols).any (fun c => cellIsStr (row c))

/-- `temps`: the non-missing, non-zero readings of the present exhaust
columns (src/app.py line 85). -/
def temps (cols : List String) (row : String → Cell) : List ℚ :=
  (exhaustCols cols).filterMap (fun c =>
    match tempOf (row c) with
    | some q => if q = 0 then none else some q
    | none => none)

/-- The `for j, c in enumerate(exhaust_cols, start=1)` loop body of rule 3:
`j` counts positions in the present-column list, starting at 1. -/
def rule3Go (row : String → Cell) (avg : ℚ) : ℕ → List String → List String
  | _, [] => []
  | j, c :: cs =>
    (match tempOf (row c) with
     | some q => if q ≠ 0 ∧ |q - avg| > 50 then [msgAtUnit j] else []
     | none => []) ++ rule3Go row avg (j + 1) cs

/-- Rule 3 (src/app.py lines 78-92): at sea with ME Rhrs > 12, compare every
present non-zero reading against the mean of the non-zero readings. -/
def rule3Msgs (cols : List String) (row : String → Cell) : List String :=
  if reportTypeOf cols row = "At Sea" ∧ meRhrsOf cols row > 12 then
    let ts := temps cols row
    if ts.isEmpty then [] else rule3Go row (ts.sum / (ts.length : ℚ)) 1 (exhaustCols cols)
  else []

/-- Rule 4 (src/app.py lines 94-97): ME running hours above 25. -/
def rule4Msgs (cols : List String) (row : String → Cell) : List String :=
  if meRhrsOf cols row > 25 then [msgRhrs] else []

/-- All messages appended to `reason` for one row, in source order. -/
def rowMsgs (cols : List String) (row : String → Cell) : List String :=
  rule1Msgs cols row ++ rule2Msgs cols row ++ rule3Msgs cols row ++ rule4Msgs cols row

/-- Python `"; ".join(l)`. -/
def joinSemi : List String → String
  | [] => ""
  | [m] => m
  | m :: ms => m ++ "; " ++ joinSemi ms

/-- `"; ".join(reason)`. -/
def rowReason (cols : List String) (row : String → Cell) : String :=
  joinSemi (rowMsgs cols row)

/-- Columns added to `fail_columns` by rules 1, 2 and 4 for one row. -/
def rule1FailCols (cols : List String) (row : String → Cell) : List String :=
  if rule1Msgs cols row = [] then [] else ["SFOC"]

def rule2FailCols (cols : List String) (row : String → Cell) : List String :=
  if rule2Msgs cols row = [] then [] else [speedCol]

def rule4FailCols (cols : List String) (row : String → Cell) : List String :=
  if rule4Msgs cols row = [] then [] else [rhrsCol]

/-- Offending column names collected by rule 3 (`fail_columns.add(c)`). -/
def rule3GoCols (row : String → Cell) (avg : ℚ) : List String → List String
  | [] => []
  | c :: cs =>
    (match tempOf (row c) with
     | some q => if q ≠ 0 ∧ |q - avg| > 50 then [c] else []
     | none => []) ++ rule3GoCols row avg cs

def rule3FailCols (cols : List String) (row : String → Cell) : List String :=
  if reportTypeOf cols row = "At Sea" ∧ meRhrsOf cols row > 12 then
    let ts := temps cols row
    if ts.isEmpty then [] else rule3GoCols row (ts.sum / (ts.length : ℚ)) (exhaustCols cols)
  else []

def rowFailCols (cols : List String) (row : String → Cell) : List String :=
  rule1FailCols cols row ++ rule2FailCols cols row
    ++ rule3FailCols cols row ++ rule4FailCols cols row

/-- The cleaning pass plus the SFOC column (src/app.py lines 24-46).  The five
columns named in the SFOC expression are looked up unconditionally; a missing
one raises KeyError in pandas, modelled as `none`. -/
def deriveDF (df : DataFrame) : Option DataFrame :=
  if requiredCols.all (fun c => decide (c ∈ df.cols)) then
    some ⟨colsAfterSfoc df.cols, df.rows.map (fun row => addSfoc (cleanRow df.cols row))⟩
  else none

/-- Store the reason string in the row (`df["Reason"] = reasons`). -/
def addReason (cols : List String) (row : String → Cell) : String → Cell :=
  fun c => if c = "Reason" then Cell.str (rowReason cols row) else row c

/-- The per-row rule loop plus the Reason column assignment
(src/app.py lines 48-101). -/
def annotateDF (df1 : DataFrame) : DataFrame :=
  ⟨if "Reason" ∈ df1.cols then df1.cols else df1.cols ++ ["Reason"],
   df1.rows.map (fun row => addReason df1.cols row)⟩

/-- `fail_columns` accumulated over all rows.  The Python source keeps them in
a set, whose iteration order is unspecified; we fix first-insertion order
(nothing verified below depends on this order). -/
def failColsOf (df1 : DataFrame) : List String :=
  df1.rows.flatMap (fun row => rowFailCols df1.cols row)

/-- Context columns always kept in the failed view (src/app.py lines 111-128). -/
def contextCols : List String :=
  ["Ship Name", "IMO_No", "Report Type", "Start Date", "Start Time",
   "End Date", "End Time", "Voyage Number", "Time Zone",
   "Distance - Ground [NM]", "Time Shift", "Distance - Sea [NM]",
   "Average Load [kW]", "Average RPM", "Average Load [%]",
   "ME Rhrs (From Last Report)"]

/-- Deduplicate while preserving order, keeping only columns present in
`cols2` (the source's seen-set loop, src/app.py lines 134-139). -/
def keepCols (cols2 : List String) : List String → List String → List String
  | _, [] => []
  | seen, c :: cs =>
    if c ∉ seen ∧ c ∈ cols2 then c :: keepCols cols2 (c :: seen) cs
    else keepCols cols2 seen cs

/-- Move "Ship Name" to the front when present (src/app.py lines 142-144). -/
def moveShipFirst (l : List String) : List String :=
  if "Ship Name" ∈ l then "Ship Name" :: l.erase "Ship Name" else l

/-- The filtered failed view: rows with a non-empty reason, restricted to the
context/exhaust/failed/Reason columns (src/app.py lines 102-146). -/
def failedDF (df2 : DataFrame) (failCols : List String) : DataFrame :=
  ⟨moveShipFirst (keepCols df2.cols []
      (contextCols ++ exhaustCols df2.cols ++ failCols ++ ["Reason"])),
   df2.rows.filter (fun row => decide (row "Reason" ≠ Cell.str ""))⟩

/-- The core evaluator `validate_reports` of src/app.py (lines 12-148):
clean, derive SFOC, evaluate the rules into a Reason column, and return the
pair (failed view, full annotated dataset).  `none` models an exception
escaping the function: the KeyError raised when one of the five SFOC columns
is absent, and the TypeError raised by rule 3's `np.mean` when an applicable
row carries a text cell in a present exhaust column (`rowRaises`). -/
def validate_reports (df : DataFrame) : Option (DataFrame × DataFrame) :=
  (deriveDF df).bind (fun df1 =>
    if df1.rows.any (fun row => rowRaises df1.cols row) then none
    else
      let df2 := annotateDF df1
      some (failedDF df2 (failColsOf df1), df2))

/-- Rounding to 2 decimal places. -/
def round2 (q : ℚ) : ℚ := ((round (q * 100) : ℤ) : ℚ) / 100

/-- Modelled from the spec: the Metric Deriver combines a parsed date and a
parsed time into an instant; either part missing or unparseable means no
instant.  src/app.py contains no Report Duration computation, so the instant
is modelled abstractly: the date in days, the time in hours within the day. -/
def mkInstant : Option ℚ → Option ℚ → Option ℚ
  | some d, some t => some (24 * d + t)
  | _, _ => none

/-- Modelled from the spec: Report Duration, absent from src/app.py.
"the elapsed time, in hours to 2 decimal places, between a start instant
(start date + start time) and an end instant (end date + end time), plus a
numeric hour-shift correction"; "Missing or unparseable start/end date or
time → duration = 0". -/
def reportDuration (sd st ed et : Option ℚ) (timeShift : ℚ) : ℚ :=
  match mkInstant sd st, mkInstant ed et with
  | some s, some e => round2 (e - s + timeShift)
  | _, _ => 0

/-- Modelled from the spec: the fixed advisory sentence of rule 5 (the spec
fixes its existence, not its wording; src/app.py has no rule 5). -/
def rule5Advisory : String :=
  "Aux engine usage at sea is unusually high with no reported sub-consumptions; please verify auxiliary engine logs"

/-- Modelled from the spec: rule 5's auxiliary-engine anomaly flag, absent
from src/app.py.  "Applies when Report Type = At Sea AND Report Duration > 0;
fails when (sum of up to 6 aux-engine running-hour columns) / Report Duration
> 1.25 AND Average Load[%] > 40 AND sum of the 10 named sub-consumption
columns == 0". -/
def rule5Flag (reportType : String) (duration : ℚ) (auxHours : List ℚ)
    (avgLoadPct : ℚ) (subCons : List ℚ) : Bool :=
  decide (reportType = "At Sea") && decide (duration > 0)
    && decide (auxHours.sum / duration > 5 / 4)
    && decide (avgLoadPct > 40) && decide (subCons.sum = 0)

/-- Modelled from the spec: when the rule-5 flag is set, the fixed advisory
sentence is appended after all other rule messages. -/
def appendRule5 (msgs : List String) (flag : Bool) : List String :=
  if flag then msgs ++ [rule5Advisory] else msgs

/-- Claim-side restatement (for claim C6): the non-zero, non-missing readings
of the exhaust-temperature columns present in the input schema, enumerated by
unit number. -/
def specReadings (cols : List String) (row : String → Cell) : List ℚ :=
  ((List.range' 1 16).filter (fun j => exhName j ∈ cols)).filterMap (fun j =>
    match tempOf (row (exhName j)) with
    | some q => if q = 0 then none else some q
    | none => none)

/-! ## Concrete inputs used to exercise the definitions -/

/-- A dataset whose columns lack "Average Load [kW]" (and the other four
columns of the SFOC formula): input for claim C8. -/
def dfNoLoad : DataFrame := ⟨["Report Type"], [fun _ => Cell.na]⟩

/-- A row at sea with ME Rhrs 13 whose present exhaust column for unit 1
holds the text "hot": rule 3's mean computation raises on it. -/
def dfTypeErrRow : String → Cell := fun c =>
  if c = "Report Type" then Cell.str "At Sea"
  else if c = exhName 1 then Cell.str "hot"
  else Cell.num 13

/-- A dataset with all five SFOC-formula columns present on which the
evaluator nevertheless raises (claim C8). -/
def dfTypeErr : DataFrame := ⟨"Report Type" :: exhName 1 :: requiredCols, [dfTypeErrRow]⟩

/-- Columns of a one-row dataset whose report type is "At Port": input for
claim C4. -/
def c4Cols : List String := ["Report Type", speedCol]

/-- An "At Port" row with average speed 5 knots. -/
def c4Row : String → Cell := fun c =>
  if c = "Report Type" then Cell.str "At Port"
  else if c = speedCol then Cell.num 5
  else Cell.na

/-- Columns of the claim-C1 dataset: an "At Sea" report with an (ignored)
extra "Report Duration" column. -/
def c1Cols : List String :=
  ["Report Type", "Report Duration", fuel1Col, fuel2Col, fuel3Col, loadCol, rhrsCol, speedCol]

/-- The claim-C1 row: ME Rhrs = 14, Report Duration = 10, and otherwise
benign values (SFOC evaluates to 180, speed 10). -/
def c1Row : String → Cell := fun c =>
  if c = "Report Type" then Cell.str "At Sea"
  else if c = "Report Duration" then Cell.num 10
  else if c = fuel1Col then Cell.num (252 / 100)
  else if c = loadCol then Cell.num 1000
  else if c = rhrsCol then Cell.num 14
  else if c = speedCol then Cell.num 10
  else Cell.num 0

def c1DF : DataFrame := ⟨c1Cols, [c1Row]⟩

/-- Columns of the claim-C6 dataset: exhaust units 1 and 2 present. -/
def c6Cols : List String := [exhName 1, exhName 2, "Report Type", rhrsCol]

/-- The claim-C6 row: unit 1 reads exactly 0, unit 2 reads 100, at sea with
ME Rhrs 13. -/
def c6Row : String → Cell := fun c =>
  if c = exhName 1 then Cell.num 0
  else if c = exhName 2 then Cell.num 100
  else if c = "Report Type" then Cell.str "At Sea"
  else if c = rhrsCol then Cell.num 13
  else Cell.na

/-- Columns of the claim-C7 dataset: unit 1's exhaust column is absent while
units 2 and 3 are present. -/
def c7Cols : List String := [exhName 2, exhName 3, "Report Type", rhrsCol]

/-- The claim-C7 row: units 2 and 3 read 100 and 210 (mean 155, both deviate
by 55), at sea with ME Rhrs 13. -/
def c7Row : String → Cell := fun c =>
  if c = exhName 2 then Cell.num 100
  else if c = exhName 3 then Cell.num 210
  else if c = "Report Type" then Cell.str "At Sea"
  else if c = rhrsCol then Cell.num 13
  else Cell.na

/-- Column list of the annotated output: the input columns, then "SFOC" and
"Reason" when not already present. -/
def annCols (cols0 : List String) : List String :=
  if "Reason" ∈ colsAfterSfoc cols0 then colsAfterSfoc cols0
  else colsAfterSfoc cols0 ++ ["Reason"]

/-- The whole per-row pipeline of `validate_reports`: clean the numeric
cells, store the SFOC value, store the reason string. -/
def pipeRow (cols0 : List String) (r0 : String → Cell) : String → Cell :=
  addReason (colsAfterSfoc cols0) (addSfoc (cleanRow cols0 r0))

/-- The claim-C9 row: every cell numeric 3. -/
def c9Row : String → Cell := fun _ => Cell.num 3

def c9DF : DataFrame := ⟨requiredCols, [c9Row]⟩

/-- The annotated output of `validate_reports` on `c9DF`. -/
def c9Ann : DataFrame := ⟨annCols requiredCols, [pipeRow requiredCols c9Row]⟩

/-- Columns of the claim-C10 dataset. -/
def c10Cols : List String := ["Ship Name", fuel1Col, fuel2Col, fuel3Col, loadCol, rhrsCol]

/-- The claim-C10 row: the raw Average Load cell is the text "nan". -/
def c10Row : String → Cell := fun c =>
  if c = "Ship Name" then Cell.str "Vessel A"
  else if c = loadCol then Cell.str "nan"
  else Cell.num 1

def c10DF : DataFrame := ⟨c10Cols, [c10Row]⟩

/-! ## Theorems -/

/-- Any message produced by the rule-3 loop comes from some position `k` of
the traversed column list: it is the message for counter value `j + k`, and
the cell at that position is a non-missing, non-zero reading deviating from
the mean by more than 50. -/
theorem rule3Go_mem (row : String → Cell) (avg : ℚ) :
    ∀ (cs : List String) (j : ℕ) (m : String), m ∈ rule3Go row avg j cs →
      ∃ (k : ℕ) (hk : k < cs.length), m = msgAtUnit (j + k) ∧
        ∃ q, tempOf (row (cs.get ⟨k, hk⟩)) = some q ∧ q ≠ 0 ∧ |q - avg| > 50 := by
  intro cs
  induction cs with
  | nil => intro j m hm; simp [rule3Go] at hm
  | cons c cs ih =>
    intro j m hm
    have hstep : rule3Go row avg j (c :: cs) =
        (match tempOf (row c) with
         | some q => if q ≠ 0 ∧ |q - avg| > 50 then [msgAtUnit j] else []
         | none => []) ++ rule3Go row avg (j + 1) cs := rfl
    rw [hstep] at hm
    cases htemp : tempOf (row c) with
    | none =>
      rw [htemp] at hm
      rw [List.nil_append] at hm
      obtain ⟨k, hk, hmsg, q, hq, hq0, hd⟩ := ih (j + 1) m hm
      exact ⟨k + 1, Nat.succ_lt_succ hk,
        by rw [hmsg]; congr 1; omega, q, hq, hq0, hd⟩
    | some q0 =>
      rw [htemp] at hm
      have hm : m ∈ (if q0 ≠ 0 ∧ |q0 - avg| > 50 then [msgAtUnit j] else [])
          ++ rule3Go row avg (j + 1) cs := hm
      by_cases hcond : q0 ≠ 0 ∧ |q0 - avg| > 50
      · rw [if_pos hcond] at hm
        rcases List.mem_append.mp hm with h1 | h2
        · have hm1 : m = msgAtUnit j := by simpa using h1
          exact ⟨0, by simp, by rw [hm1]; congr 1, q0, htemp, hcond.1, hcond.2⟩
        · obtain ⟨k, hk, hmsg, q, hq, hq0, hd⟩ := ih (j + 1) m h2
          exact ⟨k + 1, Nat.succ_lt_succ hk,
            by rw [hmsg]; congr 1; omega, q, hq, hq0, hd⟩
      · rw [if_neg hcond, List.nil_append] at hm
        obtain ⟨k, hk, hmsg, q, hq, hq0, hd⟩ := ih (j + 1) m hm
        exact ⟨k + 1, Nat.succ_lt_succ hk,
          by rw [hmsg]; congr 1; omega, q, hq, hq0, hd⟩

theorem exhaustCols_length_le (cols : List String) : (exhaustCols cols).length ≤ 16 := by
  unfold exhaustCols exhUnits
  rw [List.length_map]
  calc (List.filter (fun j => decide (exhName j ∈ cols)) (List.range' 1 16)).length
      ≤ (List.range' 1 16).length := List.length_filter_le _ _
    _ = 16 := by simp [List.length_range']

theorem msgAtUnit_injOn16 : ∀ i ∈ List.range' 1 16, ∀ k ∈ List.range' 1 16,
    msgAtUnit i = msgAtUnit k → i = k := by decide

theorem msgAtUnit_ne_msgRhrs : ∀ i ∈ List.range' 1 16, msgAtUnit i ≠ msgRhrs := by decide

theorem msgRhrs_not_mem_rule1 (cols : List String) (row : String → Cell) :
    msgRhrs ∉ rule1Msgs cols row := by
  unfold rule1Msgs
  split_ifs <;> decide

theorem msgRhrs_not_mem_rule2 (cols : List String) (row : String → Cell) :
    msgRhrs ∉ rule2Msgs cols row := by
  unfold rule2Msgs
  split_ifs <;> decide

theorem msgRhrs_not_mem_rule3 (cols : List String) (row : String → Cell) :
    msgRhrs ∉ rule3Msgs cols row := by
  simp only [rule3Msgs]
  split_ifs with h1 h2
  · simp
  · intro hm
    obtain ⟨k, hk, hmsg, -⟩ := rule3Go_mem row _ (exhaustCols cols) 1 msgRhrs hm
    have h16 : (1 + k) ∈ List.range' 1 16 := by
      rw [List.mem_range'_1]
      have := exhaustCols_length_le cols
      omega
    exact msgAtUnit_ne_msgRhrs (1 + k) h16 hmsg.symm
  · simp

/-- C1 (amended): rule 4's message "ME Rhrs > 25" appears among a row's rule
messages exactly when the row's ME Rhrs value exceeds 25; no report duration
is involved, and no other rule can produce that message. -/
theorem c1_rule4_condition (cols : List String) (row : String → Cell) :
    msgRhrs ∈ rowMsgs cols row ↔ meRhrsOf cols row > 25 := by
  constructor
  · intro hx
    have h4 : msgRhrs ∈ rule4Msgs cols row := by
      unfold rowMsgs at hx
      rcases List.mem_append.mp hx with hx3 | h4
      · rcases List.mem_append.mp hx3 with hx2 | h
        · rcases List.mem_append.mp hx2 with h | h
          · exact absurd h (msgRhrs_not_mem_rule1 cols row)
          · exact absurd h (msgRhrs_not_mem_rule2 cols row)
        · exact absurd h (msgRhrs_not_mem_rule3 cols row)
      exact h4
    by_cases hc : meRhrsOf cols row > 25
    · exact hc
    · rw [rule4Msgs, if_neg hc] at h4
      exact absurd h4 (List.not_mem_nil _)
  · intro h
    have hmem : msgRhrs ∈ rule4Msgs cols row := by
      rw [rule4Msgs, if_pos h]
      simp
    unfold rowMsgs
    simp [hmem]

/-- C6: rule 3 never emits the message generated while scanning an exhaust
column whose cell is exactly 0 or missing (position `i` in the scan produces
the message numbered `i + 1`, so a zero or missing cell at position `i`
means that message is absent), and the list of readings whose mean rule 3
uses is exactly the non-zero, non-missing readings of the exhaust columns
present in the schema. -/
theorem c6_zero_or_missing_never_reported (cols : List String) (row : String → Cell) :
    (∀ (i : ℕ) (hi : i < (exhaustCols cols).length),
        (row ((exhaustCols cols).get ⟨i, hi⟩) = Cell.num 0
            ∨ row ((exhaustCols cols).get ⟨i, hi⟩) = Cell.na)
          → msgAtUnit (i + 1) ∉ rule3Msgs cols row)
      ∧ temps cols row = specReadings cols row := by
  constructor
  · intro i hi hzero
    simp only [rule3Msgs]
    split_ifs with h1 h2
    · simp
    · intro hm
      obtain ⟨k, hk, hmsg, q, hq, hq0, -⟩ :=
        rule3Go_mem row _ (exhaustCols cols) 1 (msgAtUnit (i + 1)) hm
      have hlen := exhaustCols_length_le cols
      have hik : i + 1 = 1 + k := by
        refine msgAtUnit_injOn16 (i + 1) ?_ (1 + k) ?_ hmsg <;>
          rw [List.mem_range'_1] <;> omega
      have hki : k = i := by omega
      subst hki
      rcases hzero with hz | hz <;> rw [hz] at hq <;> simp [tempOf] at hq
      exact hq0 hq.symm
    · simp
  · unfold temps specReadings exhaustCols
    rw [List.filterMap_map]
    rfl

/-- C7: with unit 1's exhaust column absent and units 2 and 3 present reading
100 and 210 (both deviate from the mean 155 by 55 > 50), the code emits the
messages naming Units 1 and 2 — the positions of the offending columns in
the present-column list — instead of the actual unit numbers 2 and 3. -/
theorem c7_unit_numbering :
    rule3Msgs c7Cols c7Row = [msgAtUnit 1, msgAtUnit 2]
      ∧ [msgAtUnit 1, msgAtUnit 2] ≠ [msgAtUnit 2, msgAtUnit 3] := by
  refine ⟨?_, by decide⟩
  have hcond : reportTypeOf c7Cols c7Row = "At Sea" ∧ meRhrsOf c7Cols c7Row > 12 := by decide
  have ht : temps c7Cols c7Row = [(100 : ℚ), 210] := by decide
  have hex : exhaustCols c7Cols = [exhName 2, exhName 3] := by decide
  have h2 : c7Row (exhName 2) = Cell.num 100 := by decide
  have h3 : c7Row (exhName 3) = Cell.num 210 := by decide
  simp only [rule3Msgs, if_pos hcond, ht, hex]
  norm_num [rule3Go, tempOf, h2, h3, List.isEmpty]

/-- C6 witness: the characterization applied to the concrete row whose unit-1
reading is exactly 0 (and unit 2 reads 100). -/
theorem c6_witness : msgAtUnit 1 ∉ rule3Msgs c6Cols c6Row
    ∧ temps c6Cols c6Row = specReadings c6Cols c6Row := by
  refine ⟨?_, (c6_zero_or_missing_never_reported c6Cols c6Row).2⟩
  exact (c6_zero_or_missing_never_reported c6Cols c6Row).1 0 (by decide) (Or.inl (by decide))

/-- C5: for every row, the SFOC cell stored by the derivation step is 0
whenever the cleaned average load or the cleaned engine running hours is 0,
and otherwise is the sum of the three cleaned fuel-consumption values times
1,000,000 divided by (load times running hours). -/
theorem c5_sfoc_formula (cols : List String) (row : String → Cell) :
    addSfoc (cleanRow cols row) "SFOC" = Cell.num (
      if cellNum (cleanRow cols row loadCol) = 0 ∨ cellNum (cleanRow cols row rhrsCol) = 0
      then 0
      else (cellNum (cleanRow cols row fuel1Col) + cellNum (cleanRow cols row fuel2Col)
              + cellNum (cleanRow cols row fuel3Col)) * 1000000
            / (cellNum (cleanRow cols row loadCol) * cellNum (cleanRow cols row rhrsCol))) := by
  show Cell.num (sfocOfRow (cleanRow cols row)) = _
  congr 1
  unfold sfocOfRow nanRepl
  by_cases hl : cellNum (cleanRow cols row loadCol) = 0 <;>
    by_cases hr : cellNum (cleanRow cols row rhrsCol) = 0 <;>
      simp [hl, hr]

/-- C2 (modelled from the spec; src/app.py derives no Report Duration):
the duration is the elapsed hours between the two instants plus the time
shift, rounded to 2 decimals, and is 0 whenever any of the four date/time
parts is missing or unparseable. -/
theorem c2_report_duration (d1 t1 d2 t2 ts : ℚ) (sd st ed et : Option ℚ) :
    reportDuration (some d1) (some t1) (some d2) (some t2) ts
        = round2 ((24 * d2 + t2) - (24 * d1 + t1) + ts)
      ∧ reportDuration none st ed et ts = 0
      ∧ reportDuration sd none ed et ts = 0
      ∧ reportDuration sd st none et ts = 0
      ∧ reportDuration sd st ed none ts = 0 := by
  refine ⟨rfl, rfl, ?_, ?_, ?_⟩
  · cases sd <;> rfl
  · cases sd <;> cases st <;> rfl
  · cases sd <;> cases st <;> cases ed <;> rfl

/-- C3 (modelled from the spec; src/app.py has no rule 5): the anomaly flag
holds exactly when all five sub-conditions hold simultaneously, and a true
flag appends the fixed advisory sentence after all other messages (a false
flag appends nothing). -/
theorem c3_rule5_flag (rt : String) (d load : ℚ) (aux sub : List ℚ)
    (msgs : List String) :
    (rule5Flag rt d aux load sub = true ↔
        (rt = "At Sea" ∧ 0 < d ∧ 5 / 4 < aux.sum / d ∧ 40 < load ∧ sub.sum = 0))
      ∧ appendRule5 msgs (rule5Flag rt d aux load sub)
          = (if rule5Flag rt d aux load sub then msgs ++ [rule5Advisory] else msgs)
      ∧ appendRule5 msgs true = msgs ++ [rule5Advisory]
      ∧ appendRule5 msgs false = msgs := by
  refine ⟨?_, rfl, rfl, rfl⟩
  simp only [rule5Flag, Bool.and_eq_true, decide_eq_true_eq, gt_iff_lt]
  tauto

/-- The evaluator returns a value exactly when the five SFOC-formula columns
are present and no processed row triggers rule 3's TypeError. -/
theorem validate_isSome (df : DataFrame) :
    (validate_reports df).isSome
      = (requiredCols.all (fun c => decide (c ∈ df.cols))
          && !((df.rows.map (fun row => addSfoc (cleanRow df.cols row))).any
              (fun row => rowRaises (colsAfterSfoc df.cols) row))) := by
  unfold validate_reports deriveDF
  cases hb : requiredCols.all (fun c => decide (c ∈ df.cols)) with
  | false => simp
  | true =>
    rw [if_pos rfl, Option.some_bind]
    dsimp only
    cases hr : (df.rows.map (fun row => addSfoc (cleanRow df.cols row))).any
        (fun row => rowRaises (colsAfterSfoc df.cols) row) with
    | false => simp
    | true => simp

/-- C8 (amended): the evaluator returns its two outputs exactly when the five
columns of the SFOC formula are all present (any of them missing raises a
lookup error) and no at-sea row with ME Rhrs > 12 carries a text cell in a
present exhaust-temperature column (such a cell reaches rule 3's mean
computation and raises a type error); all other absent columns are tolerated
through per-row defaulted lookups, so the rules reading them simply never
fire. -/
theorem c8_required_columns (df : DataFrame) :
    (validate_reports df).isSome ↔
      ((∀ c ∈ requiredCols, c ∈ df.cols)
        ∧ ∀ row ∈ df.rows,
            rowRaises (colsAfterSfoc df.cols) (addSfoc (cleanRow df.cols row)) = false) := by
  constructor
  · intro h
    have hb : (requiredCols.all (fun c => decide (c ∈ df.cols))
        && !((df.rows.map (fun row => addSfoc (cleanRow df.cols row))).any
            (fun row => rowRaises (colsAfterSfoc df.cols) row))) = true := by
      rw [← validate_isSome df]
      exact h
    rw [Bool.and_eq_true] at hb
    obtain ⟨h1, h2⟩ := hb
    refine ⟨?_, ?_⟩
    · intro c hc
      have := List.all_eq_true.mp h1 c hc
      simpa using this
    · intro row hrow
      have hany : (df.rows.map (fun row => addSfoc (cleanRow df.cols row))).any
          (fun row => rowRaises (colsAfterSfoc df.cols) row) = false := by
        cases hx : (df.rows.map (fun row => addSfoc (cleanRow df.cols row))).any
            (fun row => rowRaises (colsAfterSfoc df.cols) row) with
        | false => rfl
        | true => rw [hx] at h2; cases h2
      have := List.any_eq_false.mp hany _
        (List.mem_map_of_mem (fun row => addSfoc (cleanRow df.cols row)) hrow)
      simpa using this
  · rintro ⟨h1, h2⟩
    show (validate_reports df).isSome = true
    rw [validate_isSome df]
    have ha : requiredCols.all (fun c => decide (c ∈ df.cols)) = true :=
      List.all_eq_true.mpr (fun c hc => by simpa using h1 c hc)
    have hb : (df.rows.map (fun row => addSfoc (cleanRow df.cols row))).any
        (fun row => rowRaises (colsAfterSfoc df.cols) row) = false :=
      List.any_eq_false.mpr (fun row hrow => by
        obtain ⟨r0, hr0, rfl⟩ := List.mem_map.mp hrow
        simpa using h2 r0 hr0)
    rw [ha, hb]
    rfl

/-- C4 counterexample: an "At Port" row whose average speed is 5 receives the
rule-2 message "Avg. Speed not 0 at port" although its rule 4 contributes
nothing, refuting the claim that rules 1, 2, 3 and 5 never contribute a
message on "At Port" rows and only rule 4 can fire. -/
theorem c4_counterexample : reportTypeOf c4Cols c4Row = "At Port"
    ∧ rule4Msgs c4Cols c4Row = []
    ∧ rowMsgs c4Cols c4Row = [msgSpeedPort] := by
  refine ⟨by decide, ?_, ?_⟩
  · simp +decide [rule4Msgs, meRhrsOf, rowGet, cellNum, c4Cols, c4Row, rhrsCol, speedCol]
  · simp +decide [rowMsgs, rule1Msgs, rule2Msgs, rule3Msgs, rule4Msgs, reportTypeOf,
      meRhrsOf, sfocValOf, avgSpeedOf, rowGet, cellNum, cellToString, strip, stripChars,
      c4Cols, c4Row, rhrsCol, speedCol, msgSpeedPort]
    norm_num

/-- C4 (amended): on an "At Port" row, rule 3 never contributes and the
reason list is exactly the port-variant messages of rules 1 and 2 (fired by a
non-zero SFOC and a non-zero average speed respectively) followed by rule 4's
message when ME Rhrs > 25. -/
theorem c4_at_port_messages (cols : List String) (row : String → Cell)
    (h : reportTypeOf cols row = "At Port") :
    rowMsgs cols row =
      (if |sfocValOf cols row| > 1 / 10000 then [msgSfocPort] else [])
        ++ (if |avgSpeedOf cols row| > 1 / 10000 then [msgSpeedPort] else [])
        ++ (if meRhrsOf cols row > 25 then [msgRhrs] else []) := by
  unfold rowMsgs rule1Msgs rule2Msgs rule3Msgs rule4Msgs
  simp [h]

/-- C4 witness: the amended characterization evaluated on the concrete
"At Port" row with speed 5. -/
theorem c4_witness : rowMsgs c4Cols c4Row = [msgSpeedPort] := by
  rw [c4_at_port_messages c4Cols c4Row (by decide)]
  simp +decide [sfocValOf, avgSpeedOf, meRhrsOf, rowGet, cellNum,
    c4Cols, c4Row, speedCol, rhrsCol]
  norm_num

/-- C8 counterexample: on a dataset missing the expected column
"Average Load [kW]" the evaluator does not return its outputs (pandas raises
KeyError, modelled by `none`), refuting the claim that every missing expected
column is tolerated by zero-filling; moreover even with all five SFOC-formula
columns present the evaluator can fail to return (rule 3's TypeError on a
text exhaust reading), so zero-filling does not happen on any path. -/
theorem c8_counterexample :
    validate_reports dfNoLoad = none
      ∧ (validate_reports dfTypeErr).isSome = false
      ∧ (∀ c ∈ requiredCols, c ∈ dfTypeErr.cols) :=
  ⟨rfl, by decide, by decide⟩

theorem cleanCell_num (q : ℚ) : cleanCell (Cell.num q) = q := rfl

theorem required_ne : ∀ c ∈ requiredCols, c ≠ "SFOC" ∧ c ≠ "Reason" := by decide

theorem numeric_ne : ∀ c ∈ numeric_cols, c ≠ "SFOC" ∧ c ≠ "Reason" := by decide

theorem exhName_ne_reason : ∀ j ∈ List.range' 1 16, exhName j ≠ "Reason" := by decide

theorem mem_colsAfterSfoc_iff (cols : List String) (c : String) (h : c ≠ "SFOC") :
    c ∈ colsAfterSfoc cols ↔ c ∈ cols := by
  unfold colsAfterSfoc
  split_ifs with hs
  · exact Iff.rfl
  · simp [h]

theorem sfoc_mem_colsAfterSfoc (cols : List String) : "SFOC" ∈ colsAfterSfoc cols := by
  unfold colsAfterSfoc
  split_ifs with hs
  · exact hs
  · simp

theorem mem_annCols_iff (cols0 : List String) (c : String) (h : c ≠ "Reason") :
    c ∈ annCols cols0 ↔ c ∈ colsAfterSfoc cols0 := by
  unfold annCols
  split_ifs with hs
  · exact Iff.rfl
  · simp [h]

theorem colsAfterSfoc_annCols (cols0 : List String) :
    colsAfterSfoc (annCols cols0) = annCols cols0 := by
  unfold colsAfterSfoc
  rw [if_pos ((mem_annCols_iff cols0 "SFOC" (by decide)).mpr (sfoc_mem_colsAfterSfoc cols0))]

theorem rowGet_congr (cols cols' : List String) (r r' : String → Cell) (c : String)
    (d : Cell) (hmem : c ∈ cols ↔ c ∈ cols') (hval : r c = r' c) :
    rowGet cols r c d = rowGet cols' r' c d := by
  unfold rowGet
  by_cases h : c ∈ cols
  · rw [if_pos h, if_pos (hmem.mp h), hval]
  · rw [if_neg h, if_neg (fun hh => h (hmem.mpr hh))]

theorem sfocOfRow_congr (r r' : String → Cell) (h : ∀ c ∈ requiredCols, r c = r' c) :
    sfocOfRow r = sfocOfRow r' := by
  unfold sfocOfRow
  rw [h fuel1Col (by decide), h fuel2Col (by decide), h fuel3Col (by decide),
    h loadCol (by decide), h rhrsCol (by decide)]

theorem filterMap_congr_mem {α β : Type} (f g : α → Option β) :
    ∀ l : List α, (∀ a ∈ l, f a = g a) → l.filterMap f = l.filterMap g := by
  intro l
  induction l with
  | nil => intro _; rfl
  | cons a l ih =>
    intro h
    rw [List.filterMap_cons, List.filterMap_cons, h a (by simp),
      ih (fun b hb => h b (by simp [hb]))]

theorem rule3Go_congr (r r' : String → Cell) (avg : ℚ) :
    ∀ (cs : List String) (j : ℕ), (∀ c ∈ cs, r c = r' c) →
      rule3Go r avg j cs = rule3Go r' avg j cs := by
  intro cs
  induction cs with
  | nil => intro _ _; rfl
  | cons c cs ih =>
    intro j h
    have hstep : ∀ rr : String → Cell, rule3Go rr avg j (c :: cs) =
        (match tempOf (rr c) with
         | some q => if q ≠ 0 ∧ |q - avg| > 50 then [msgAtUnit j] else []
         | none => []) ++ rule3Go rr avg (j + 1) cs := fun _ => rfl
    rw [hstep r, hstep r', h c (by simp), ih (j + 1) (fun b hb => h b (by simp [hb]))]

theorem mem_exhaustCols_ne_reason (cols : List String) :
    ∀ c ∈ exhaustCols cols, c ≠ "Reason" := by
  intro c hc
  unfold exhaustCols exhUnits at hc
  obtain ⟨j, hj, rfl⟩ := List.mem_map.mp hc
  exact exhName_ne_reason j (List.mem_filter.mp hj).1

theorem rowMsgs_congr (cols cols' : List String) (r r' : String → Cell)
    (hmem : ∀ c, c ≠ "Reason" → (c ∈ cols ↔ c ∈ cols'))
    (hval : ∀ c, c ≠ "Reason" → r c = r' c) :
    rowMsgs cols r = rowMsgs cols' r' := by
  have hrt : reportTypeOf cols r = reportTypeOf cols' r' := by
    unfold reportTypeOf
    rw [rowGet_congr cols cols' r r' "Report Type" (Cell.str "")
      (hmem _ (by decide)) (hval _ (by decide))]
  have hme : meRhrsOf cols r = meRhrsOf cols' r' := by
    unfold meRhrsOf
    rw [rowGet_congr cols cols' r r' rhrsCol (Cell.num 0)
      (hmem _ (by decide)) (hval _ (by decide))]
  have hsf : sfocValOf cols r = sfocValOf cols' r' := by
    unfold sfocValOf
    rw [rowGet_congr cols cols' r r' "SFOC" (Cell.num 0)
      (hmem _ (by decide)) (hval _ (by decide))]
  have hsp : avgSpeedOf cols r = avgSpeedOf cols' r' := by
    unfold avgSpeedOf
    rw [rowGet_congr cols cols' r r' speedCol (Cell.num 0)
      (hmem _ (by decide)) (hval _ (by decide))]
  have hex : exhaustCols cols = exhaustCols cols' := by
    unfold exhaustCols exhUnits
    congr 1
    apply List.filter_congr
    intro j hj
    exact decide_eq_decide.mpr (hmem _ (exhName_ne_reason j hj))
  have htm : temps cols r = temps cols' r' := by
    unfold temps
    rw [hex]
    exact filterMap_congr_mem _ _ _
      (fun c hc => by rw [hval c (mem_exhaustCols_ne_reason cols' c hc)])
  have h1 : rule1Msgs cols r = rule1Msgs cols' r' := by
    unfold rule1Msgs
    rw [hrt, hme, hsf]
  have h2 : rule2Msgs cols r = rule2Msgs cols' r' := by
    unfold rule2Msgs
    rw [hrt, hme, hsp]
  have h3 : rule3Msgs cols r = rule3Msgs cols' r' := by
    simp only [rule3Msgs]
    rw [hrt, hme, hex, htm]
    split_ifs with hc he
    · rfl
    · exact rule3Go_congr r r' _ (exhaustCols cols') 1
        (fun c hc2 => hval c (mem_exhaustCols_ne_reason cols' c hc2))
    · rfl
  have h4 : rule4Msgs cols r = rule4Msgs cols' r' := by
    unfold rule4Msgs
    rw [hme]
  unfold rowMsgs
  rw [h1, h2, h3, h4]

theorem rowReason_congr (cols cols' : List String) (r r' : String → Cell)
    (hmem : ∀ c, c ≠ "Reason" → (c ∈ cols ↔ c ∈ cols'))
    (hval : ∀ c, c ≠ "Reason" → r c = r' c) :
    rowReason cols r = rowReason cols' r' := by
  unfold rowReason
  rw [rowMsgs_congr cols cols' r r' hmem hval]

theorem pipeRow_other (cols0 : List String) (r0 : String → Cell) (c : String)
    (h1 : c ≠ "Reason") (h2 : c ≠ "SFOC") :
    pipeRow cols0 r0 c = cleanRow cols0 r0 c := by
  unfold pipeRow addReason addSfoc
  rw [if_neg h1, if_neg h2]

theorem pipeRow_sfoc (cols0 : List String) (r0 : String → Cell) :
    pipeRow cols0 r0 "SFOC" = Cell.num (sfocOfRow (cleanRow cols0 r0)) := by
  unfold pipeRow addReason addSfoc
  rw [if_neg (by decide : ("SFOC" : String) ≠ "Reason"), if_pos rfl]

theorem pipeRow_reason (cols0 : List String) (r0 : String → Cell) :
    pipeRow cols0 r0 "Reason"
      = Cell.str (rowReason (colsAfterSfoc cols0) (addSfoc (cleanRow cols0 r0))) := by
  unfold pipeRow addReason
  rw [if_pos rfl]

theorem cleanRow_pipeRow (cols0 : List String) (r0 : String → Cell) :
    cleanRow (annCols cols0) (pipeRow cols0 r0) = pipeRow cols0 r0 := by
  funext c
  unfold cleanRow
  by_cases hn : c ∈ numeric_cols ∧ c ∈ annCols cols0
  · rw [if_pos hn]
    obtain ⟨hnum, hann⟩ := hn
    obtain ⟨hns, hnr⟩ := numeric_ne c hnum
    have hc0 : c ∈ cols0 :=
      (mem_colsAfterSfoc_iff cols0 c hns).mp ((mem_annCols_iff cols0 c hnr).mp hann)
    rw [pipeRow_other cols0 r0 c hnr hns]
    unfold cleanRow
    rw [if_pos ⟨hnum, hc0⟩, cleanCell_num]
  · rw [if_neg hn]

theorem sfocOfRow_pipeRow (cols0 : List String) (r0 : String → Cell) :
    sfocOfRow (pipeRow cols0 r0) = sfocOfRow (cleanRow cols0 r0) :=
  sfocOfRow_congr _ _ (fun c hc => by
    obtain ⟨hs, hr⟩ := required_ne c hc
    exact pipeRow_other cols0 r0 c hr hs)

theorem addSfoc_pipeRow (cols0 : List String) (r0 : String → Cell) :
    addSfoc (pipeRow cols0 r0) = pipeRow cols0 r0 := by
  funext c
  unfold addSfoc
  by_cases hc : c = "SFOC"
  · subst hc
    rw [if_pos rfl, sfocOfRow_pipeRow, pipeRow_sfoc]
  · rw [if_neg hc]

theorem pipeRow_idem (cols0 : List String) (r0 : String → Cell) (c : String) :
    pipeRow (annCols cols0) (pipeRow cols0 r0) c = pipeRow cols0 r0 c := by
  by_cases hr : c = "Reason"
  · subst hr
    rw [pipeRow_reason (annCols cols0) (pipeRow cols0 r0), cleanRow_pipeRow,
      addSfoc_pipeRow, colsAfterSfoc_annCols, pipeRow_reason cols0 r0]
    congr 1
    apply rowReason_congr
    · intro c hc
      exact mem_annCols_iff cols0 c hc
    · intro c hc
      unfold pipeRow addReason
      rw [if_neg hc]
  · by_cases hs : c = "SFOC"
    · subst hs
      rw [pipeRow_sfoc (annCols cols0), cleanRow_pipeRow, sfocOfRow_pipeRow, pipeRow_sfoc]
    · rw [pipeRow_other _ _ c hr hs, cleanRow_pipeRow]

set_option maxHeartbeats 2000000 in
theorem map_pipe_proj (cols0 : List String) (c : String) :
    ∀ l : List (String → Cell),
      ((l.map (pipeRow cols0)).map (pipeRow (annCols cols0))).map (fun row => row c)
        = (l.map (pipeRow cols0)).map (fun row => row c) := by
  intro l
  induction l with
  | nil => rfl
  | cons r0 l ih =>
    simp only [List.map_cons]
    rw [pipeRow_idem cols0 r0 c, ih]

theorem any_congr_mem {α : Type} (p q : α → Bool) :
    ∀ l : List α, (∀ a ∈ l, p a = q a) → l.any p = l.any q := by
  intro l
  induction l with
  | nil => intro _; rfl
  | cons a l ih =>
    intro h
    rw [List.any_cons, List.any_cons, h a (by simp), ih (fun b hb => h b (by simp [hb]))]

theorem rowRaises_congr (cols cols' : List String) (r r' : String → Cell)
    (hmem : ∀ c, c ≠ "Reason" → (c ∈ cols ↔ c ∈ cols'))
    (hval : ∀ c, c ≠ "Reason" → r c = r' c) :
    rowRaises cols r = rowRaises cols' r' := by
  have hrt : reportTypeOf cols r = reportTypeOf cols' r' := by
    unfold reportTypeOf
    rw [rowGet_congr cols cols' r r' "Report Type" (Cell.str "")
      (hmem _ (by decide)) (hval _ (by decide))]
  have hme : meRhrsOf cols r = meRhrsOf cols' r' := by
    unfold meRhrsOf
    rw [rowGet_congr cols cols' r r' rhrsCol (Cell.num 0)
      (hmem _ (by decide)) (hval _ (by decide))]
  have hex : exhaustCols cols = exhaustCols cols' := by
    unfold exhaustCols exhUnits
    congr 1
    apply List.filter_congr
    intro j hj
    exact decide_eq_decide.mpr (hmem _ (exhName_ne_reason j hj))
  unfold rowRaises
  rw [hrt, hme, hex]
  congr 1
  exact any_congr_mem _ _ (exhaustCols cols')
    (fun c hc => by rw [hval c (mem_exhaustCols_ne_reason cols' c hc)])

theorem pipeRow_ne_reason (cols0 : List String) (r0 : String → Cell) (c : String)
    (hc : c ≠ "Reason") : pipeRow cols0 r0 c = addSfoc (cleanRow cols0 r0) c := by
  unfold pipeRow addReason
  rw [if_neg hc]

/-- The rows processed by a second run over the annotated output hit the
rule-3 TypeError exactly when the first run's rows did. -/
theorem any_raises_pipe (cols0 : List String) :
    ∀ l : List (String → Cell),
      ((l.map (pipeRow cols0)).map (fun row => addSfoc (cleanRow (annCols cols0) row))).any
          (fun row => rowRaises (colsAfterSfoc (annCols cols0)) row)
        = (l.map (fun row => addSfoc (cleanRow cols0 row))).any
          (fun row => rowRaises (colsAfterSfoc cols0) row) := by
  intro l
  induction l with
  | nil => rfl
  | cons r0 l ih =>
    simp only [List.map_cons, List.any_cons]
    rw [ih]
    congr 1
    rw [cleanRow_pipeRow, addSfoc_pipeRow, colsAfterSfoc_annCols]
    exact rowRaises_congr (annCols cols0) (colsAfterSfoc cols0)
      (pipeRow cols0 r0) (addSfoc (cleanRow cols0 r0))
      (fun c hc => mem_annCols_iff cols0 c hc)
      (fun c hc => pipeRow_ne_reason cols0 r0 c hc)

theorem validate_snd (df : DataFrame)
    (hall : requiredCols.all (fun c => decide (c ∈ df.cols)) = true)
    (hraise : (df.rows.map (fun row => addSfoc (cleanRow df.cols row))).any
        (fun row => rowRaises (colsAfterSfoc df.cols) row) = false) :
    (validate_reports df).map Prod.snd
      = some ⟨annCols df.cols, df.rows.map (pipeRow df.cols)⟩ := by
  unfold validate_reports deriveDF
  rw [hall, if_pos rfl, Option.some_bind]
  dsimp only
  rw [hraise]
  simp only [Bool.false_eq_true, if_false]
  show some (annotateDF ⟨colsAfterSfoc df.cols,
      df.rows.map (fun row => addSfoc (cleanRow df.cols row))⟩)
    = some ⟨annCols df.cols, df.rows.map (pipeRow df.cols)⟩
  unfold annotateDF
  rw [List.map_map]
  rfl

/-- C1 counterexample: on a row with Report Type "At Sea", ME Rhrs = 14 and a
Report Duration column holding 10, the evaluator's reason is the empty
string: rule 4 produces no message at all (in particular not the claimed
"ME Rhrs (14.00) exceeds Report Hours (10.00) by 4.00h" one), because the
source's rule 4 only tests ME Rhrs > 25 and never reads any duration. -/
theorem c1_counterexample :
    (validate_reports c1DF).map (fun p => p.2.rows.map (fun row => row "Reason"))
        = some [Cell.str ""]
      ∧ meRhrsOf c1Cols c1Row = 14
      ∧ rowGet c1Cols c1Row "Report Duration" Cell.na = Cell.num 10 := by
  refine ⟨?_, by decide, by decide⟩
  have hv : (validate_reports c1DF).map Prod.snd
      = some ⟨annCols c1Cols, [pipeRow c1Cols c1Row]⟩ := by
    rw [validate_snd c1DF (by decide) (by decide)]
    rfl
  have hred : (validate_reports c1DF).map (fun p => p.2.rows.map (fun row => row "Reason"))
      = some [Cell.str (rowReason (colsAfterSfoc c1Cols) (addSfoc (cleanRow c1Cols c1Row)))] := by
    have h3 := congrArg (Option.map (fun d : DataFrame => d.rows.map (fun row => row "Reason"))) hv
    rw [Option.map_map] at h3
    exact h3
  rw [hred]
  have hsfoc : sfocValOf (colsAfterSfoc c1Cols) (addSfoc (cleanRow c1Cols c1Row)) = 180 := by
    simp +decide [sfocValOf, rowGet, addSfoc, cellNum, sfocOfRow, nanRepl, cleanRow,
      cleanCell, c1Cols, c1Row, colsAfterSfoc, numeric_cols, loadCol, rhrsCol,
      fuel1Col, fuel2Col, fuel3Col, speedCol]
    norm_num
  have hmsgs : rowMsgs (colsAfterSfoc c1Cols) (addSfoc (cleanRow c1Cols c1Row)) = [] := by
    simp +decide [rowMsgs, rule1Msgs, rule2Msgs, rule3Msgs, rule4Msgs, hsfoc]
  rw [rowReason, hmsgs]
  rfl

/-- C9: the evaluator is idempotent on its own annotated output: when
`validate_reports` succeeds on `df` with annotated dataset `a`, it also
succeeds on `a`, and the re-evaluated rows carry exactly the same Reason
cells and the same SFOC cells (a pure function of the raw inputs, so a second
run on the same raw inputs is identical by definition). -/
theorem c9_idempotent (df a : DataFrame)
    (h : (validate_reports df).map Prod.snd = some a) :
    ∃ a2, (validate_reports a).map Prod.snd = some a2
      ∧ a2.rows.map (fun row => row "Reason") = a.rows.map (fun row => row "Reason")
      ∧ a2.rows.map (fun row => row "SFOC") = a.rows.map (fun row => row "SFOC") := by
  have hsome : (validate_reports df).isSome = true := by
    cases hv : validate_reports df with
    | none => rw [hv] at h; cases h
    | some p => rfl
  rw [validate_isSome df, Bool.and_eq_true] at hsome
  obtain ⟨hall, hnr⟩ := hsome
  have hraise : (df.rows.map (fun row => addSfoc (cleanRow df.cols row))).any
      (fun row => rowRaises (colsAfterSfoc df.cols) row) = false := by
    cases hx : (df.rows.map (fun row => addSfoc (cleanRow df.cols row))).any
        (fun row => rowRaises (colsAfterSfoc df.cols) row) with
    | false => rfl
    | true => rw [hx] at hnr; cases hnr
  have ha : a = ⟨annCols df.cols, df.rows.map (pipeRow df.cols)⟩ := by
    have hv := validate_snd df hall hraise
    rw [hv] at h
    exact (Option.some.inj h).symm
  subst ha
  have hall2 : requiredCols.all
      (fun c => decide (c ∈ (DataFrame.mk (annCols df.cols)
        (df.rows.map (pipeRow df.cols))).cols)) = true := by
    rw [List.all_eq_true] at hall ⊢
    intro c hc
    obtain ⟨hs, hr⟩ := required_ne c hc
    have hc0 : c ∈ df.cols := by simpa using hall c hc
    simp only [decide_eq_true_eq]
    exact (mem_annCols_iff df.cols c hr).mpr ((mem_colsAfterSfoc_iff df.cols c hs).mpr hc0)
  have hraise2 : (((DataFrame.mk (annCols df.cols) (df.rows.map (pipeRow df.cols))).rows.map
      (fun row => addSfoc (cleanRow (DataFrame.mk (annCols df.cols)
        (df.rows.map (pipeRow df.cols))).cols row))).any
      (fun row => rowRaises (colsAfterSfoc (DataFrame.mk (annCols df.cols)
        (df.rows.map (pipeRow df.cols))).cols) row)) = false := by
    show ((df.rows.map (pipeRow df.cols)).map
        (fun row => addSfoc (cleanRow (annCols df.cols) row))).any
        (fun row => rowRaises (colsAfterSfoc (annCols df.cols)) row) = false
    rw [any_raises_pipe df.cols df.rows]
    exact hraise
  refine ⟨_, validate_snd ⟨annCols df.cols, df.rows.map (pipeRow df.cols)⟩ hall2 hraise2, ?_, ?_⟩
  · exact map_pipe_proj df.cols "Reason" df.rows
  · exact map_pipe_proj df.cols "SFOC" df.rows

/-- C9 witness: the idempotence theorem applied to the concrete one-row
dataset holding 3 in each required column. -/
theorem c9_witness :
    ∃ a2, (validate_reports c9Ann).map Prod.snd = some a2
      ∧ a2.rows.map (fun row => row "Reason") = c9Ann.rows.map (fun row => row "Reason")
      ∧ a2.rows.map (fun row => row "SFOC") = c9Ann.rows.map (fun row => row "SFOC") :=
  c9_idempotent c9DF c9Ann (by rw [validate_snd c9DF (by decide) (by decide)]; rfl)

/-- C10 counterexample: a raw "Average Load [kW]" cell holding the text "nan"
is overwritten by the cleaning pass: after evaluation the annotated row holds
the number 0 in that raw column, not the original text, refuting the claim
that every raw column keeps exactly the value it held before. -/
theorem c10_counterexample :
    (validate_reports c10DF).map (fun p => p.2.rows.map (fun row => row loadCol))
        = some [Cell.num 0]
      ∧ c10Row loadCol = Cell.str "nan"
      ∧ Cell.num 0 ≠ Cell.str "nan" :=
  ⟨by decide, by decide, by decide⟩

/-- C10 (amended): evaluation leaves every column other than the six cleaned
numeric columns and the derived "SFOC"/"Reason" columns unchanged, and
replaces each present numeric column by the cleaned numeric value of its raw
cell (so the derived fields are pure functions of the cleaned raw values). -/
theorem c10_frame (cols0 : List String) (r0 : String → Cell) :
    (∀ c, c ∉ numeric_cols → c ≠ "SFOC" → c ≠ "Reason" → pipeRow cols0 r0 c = r0 c)
      ∧ (∀ c, c ∈ numeric_cols → c ∈ cols0 →
          pipeRow cols0 r0 c = Cell.num (cleanCell (r0 c))) := by
  constructor
  · intro c hnum hs hr
    rw [pipeRow_other cols0 r0 c hr hs]
    unfold cleanRow
    rw [if_neg (fun hh => hnum hh.1)]
  · intro c hnum hc0
    obtain ⟨hs, hr⟩ := numeric_ne c hnum
    rw [pipeRow_other cols0 r0 c hr hs]
    unfold cleanRow
    rw [if_pos ⟨hnum, hc0⟩]

/-- C10 witness: on the concrete row, the "Ship Name" cell survives
evaluation unchanged while the "Average Load [kW]" cell becomes its cleaned
numeric value. -/
theorem c10_witness :
    pipeRow c10Cols c10Row "Ship Name" = c10Row "Ship Name"
      ∧ pipeRow c10Cols c10Row loadCol = Cell.num (cleanCell (c10Row loadCol)) :=
  ⟨(c10_frame c10Cols c10Row).1 "Ship Name" (by decide) (by decide) (by decide),
   (c10_frame c10Cols c10Row).2 loadCol (by decide) (by decide)⟩

end VesselReport
